import Mathlib

/-!
Shallow embedding of `src/server/actions/deployment-actions.ts`.

The store (`db` / the `deployments` table) is modelled as a `List Deployment`;
each server action becomes a pure function over that list.  The ambient
session (`auth()`) and the availability of `db` are passed in an `Env`.
Database calls that may fail at the driver level are modelled by an explicit
Boolean failure-injection parameter per call (`insertFails`, `updateFails`,
...): when the flag is set, the corresponding `try`/`catch` in the source
fires.  Fresh ids and timestamps are assigned by the database in the source,
so they are passed in as parameters (`freshId`, `now`).  Thrown JavaScript
errors become `Except.error` carrying the thrown message.
-/

namespace DeploymentActions

/-- The deployment status values used by the source code
(`"deploying" | "completed" | "failed"`). -/
inductive DeploymentStatus where
  | deploying
  | completed
  | failed
deriving DecidableEq, Repr

/-- A row of the `deployments` table, per the data model the actions read and
write: `id`, `userId`, `projectName`, `description`, `status`, `error`, the
four external locator urls, and the two timestamps. -/
structure Deployment where
  id : String
  userId : String
  projectName : String
  description : Option String
  status : DeploymentStatus
  error : Option String
  githubRepoUrl : Option String
  githubRepoName : Option String
  vercelProjectUrl : Option String
  vercelDeploymentUrl : Option String
  createdAt : Nat
  updatedAt : Nat
deriving DecidableEq, Repr

/-- The ambient environment every action consults first: `auth()` giving the
current principal (or none), and whether `db` is available. -/
structure Env where
  session : Option String
  dbAvailable : Bool
deriving DecidableEq, Repr

/-- Result shape of the external `validateProjectName` collaborator
(`{isValid, error?}`). -/
structure ValidationResult where
  isValid : Bool
  error : Option String
deriving DecidableEq, Repr

/-- The `data` payload of a successful `DeploymentResult`
(`{githubRepo, vercelProject}`, both `undefined` at initiation). -/
structure DeploymentResultData where
  githubRepo : Option String := none
  vercelProject : Option String := none
deriving DecidableEq, Repr

/-- The `DeploymentResult` shape returned by `initiateDeployment`:
`{success, message?, error?, data?}`. -/
structure DeploymentResult where
  success : Bool
  message : Option String := none
  error : Option String := none
  data : Option DeploymentResultData := none
deriving DecidableEq, Repr

/-- The insert payload of `createDeployment`:
`Omit<NewDeployment, "id" | "userId" | "createdAt" | "updatedAt">`. -/
structure DeploymentData where
  projectName : String
  description : Option String := none
  status : DeploymentStatus
  error : Option String := none
  githubRepoUrl : Option String := none
  githubRepoName : Option String := none
  vercelProjectUrl : Option String := none
  vercelDeploymentUrl : Option String := none
deriving DecidableEq, Repr

/-- The patch accepted by `updateDeployment`:
`Partial<Omit<Deployment, "id" | "userId" | "createdAt">>`.  A `none` field is
absent from the patch; for columns that are themselves nullable the present
value is an `Option`. -/
structure DeploymentPatch where
  projectName : Option String := none
  description : Option (Option String) := none
  status : Option DeploymentStatus := none
  error : Option (Option String) := none
  githubRepoUrl : Option (Option String) := none
  githubRepoName : Option (Option String) := none
  vercelProjectUrl : Option (Option String) := none
  vercelDeploymentUrl : Option (Option String) := none
  updatedAt : Option Nat := none
deriving DecidableEq, Repr

/-- One row after `db.update(...).set({...data, updatedAt: new Date()})`:
every field present in the patch is overwritten, every absent field keeps its
old value, and `updatedAt` is unconditionally refreshed (the spread puts
`updatedAt: new Date()` after `...data`). -/
def applyPatch (r : Deployment) (p : DeploymentPatch) (now : Nat) : Deployment :=
  { r with
    projectName := p.projectName.getD r.projectName
    description := p.description.getD r.description
    status := p.status.getD r.status
    error := p.error.getD r.error
    githubRepoUrl := p.githubRepoUrl.getD r.githubRepoUrl
    githubRepoName := p.githubRepoName.getD r.githubRepoName
    vercelProjectUrl := p.vercelProjectUrl.getD r.vercelProjectUrl
    vercelDeploymentUrl := p.vercelDeploymentUrl.getD r.vercelDeploymentUrl
    updatedAt := now }

/-- `createDeployment` (source lines 120-156): throws `"Unauthorized"` without
a session, `"Database not available"` without `db`; a failing transaction is
caught and re-thrown as `"Failed to create deployment"`; otherwise one row is
inserted with the session's user id and database-assigned id/timestamps, and
returned. -/
def createDeployment (env : Env) (insertFails : Bool) (data : DeploymentData)
    (freshId : String) (now : Nat) (st : List Deployment) :
    Except String (Deployment × List Deployment) :=
  match env.session with
  | none => .error "Unauthorized"
  | some uid =>
    if !env.dbAvailable then .error "Database not available"
    else if insertFails then .error "Failed to create deployment"
    else
      let d : Deployment :=
        { id := freshId
          userId := uid
          projectName := data.projectName
          description := data.description
          status := data.status
          error := data.error
          githubRepoUrl := data.githubRepoUrl
          githubRepoName := data.githubRepoName
          vercelProjectUrl := data.vercelProjectUrl
          vercelDeploymentUrl := data.vercelDeploymentUrl
          createdAt := now
          updatedAt := now }
      .ok (d, st ++ [d])

/-- `getUserDeployments` (source lines 93-115): after the auth/db checks,
selects the rows with `userId = session.user.id` ordered by `createdAt`
descending; a failing select is caught and re-thrown as
`"Failed to fetch deployments"`. -/
def getUserDeployments (env : Env) (selectFails : Bool) (st : List Deployment) :
    Except String (List Deployment) :=
  match env.session with
  | none => .error "Unauthorized"
  | some uid =>
    if !env.dbAvailable then .error "Database not available"
    else if selectFails then .error "Failed to fetch deployments"
    else
      .ok ((st.filter (fun r => r.userId == uid)).mergeSort
        (fun a b => decide (b.createdAt ≤ a.createdAt)))

/-- `updateDeployment` (source lines 161-193): after the auth/db checks,
updates the rows matching `id = id AND userId = session.user.id` with the
patch plus a fresh `updatedAt`, returns the (first) updated row or `null`
when no row matched; a failing statement is caught and re-thrown as
`"Failed to update deployment"`. -/
def updateDeployment (env : Env) (updateFails : Bool) (id : String)
    (data : DeploymentPatch) (now : Nat) (st : List Deployment) :
    Except String (Option Deployment × List Deployment) :=
  match env.session with
  | none => .error "Unauthorized"
  | some uid =>
    if !env.dbAvailable then .error "Database not available"
    else if updateFails then .error "Failed to update deployment"
    else
      let st' := st.map (fun r =>
        if r.id == id && r.userId == uid then applyPatch r data now else r)
      let returned := (st.find? (fun r => r.id == id && r.userId == uid)).map
        (fun r => applyPatch r data now)
      .ok (returned, st')

/-- `deleteDeployment` (source lines 198-219): after the auth/db checks,
deletes the rows matching `id = id AND userId = session.user.id` and then
returns `true` unconditionally — the source ignores the statement's result
and has `return true;` after the delete; a failing statement is caught and
re-thrown as `"Failed to delete deployment"`. -/
def deleteDeployment (env : Env) (deleteFails : Bool) (id : String)
    (st : List Deployment) : Except String (Bool × List Deployment) :=
  match env.session with
  | none => .error "Unauthorized"
  | some uid =>
    if !env.dbAvailable then .error "Database not available"
    else if deleteFails then .error "Failed to delete deployment"
    else
      .ok (true, st.filter (fun r => !(r.id == id && r.userId == uid)))

/-- `initiateDeployment` (source lines 18-88): validates the raw project name
with the external validator (passed in as `validateProjectName`, since
`@/lib/schemas/deployment` is outside `src/`); on invalid input it returns
`{success: false, error}` touching nothing; otherwise it trims the name,
creates a `status = "deploying"` record via `createDeployment`, and — only on
a successful insert — schedules the background job (returned here as
`some deploymentId`) and answers success immediately.  A thrown insert error
is caught and turned into `{success: false, error: message}`. -/
def initiateDeployment (validateProjectName : String → ValidationResult)
    (env : Env) (insertFails : Bool) (projectName : String) (freshId : String)
    (now : Nat) (st : List Deployment) :
    DeploymentResult × List Deployment × Option String :=
  let validation := validateProjectName projectName
  if !validation.isValid then
    ({ success := false, error := validation.error }, st, none)
  else
    let sanitizedProjectName := projectName.trim
    let description := "Deployment of " ++ sanitizedProjectName
    match createDeployment env insertFails
        { projectName := sanitizedProjectName
          description := some description
          status := .deploying } freshId now st with
    | .error e => ({ success := false, error := some e }, st, none)
    | .ok (newDeployment, st') =>
      ({ success := true
         message := some
           "Deployment initiated successfully! You can monitor the progress on this page."
         data := some {} }, st', some newDeployment.id)

/-- Outcome of the external `deployPrivateRepository` job, which lives in
`./deploy-private-repo` outside `src/`: it either resolves, or throws — a
JavaScript `Error` carrying `some message`, or a non-`Error` value
(`none`). -/
inductive JobOutcome where
  | resolved
  | threw (message : Option String)
deriving DecidableEq, Repr

/-- `error instanceof Error ? error.message : "An unknown error occurred"`. -/
def jobErrorMessage : Option String → String
  | some m => m
  | none => "An unknown error occurred"

/-- The detached async closure of `initiateDeployment` (source lines 46-70),
run after the caller already got its result.  When the job resolves the
closure only logs (any `completed` reconciliation happens inside the external
job itself).  When the job throws, the closure reconciles the record to
`status = "failed"` with the thrown message via `updateDeployment`; a failure
of that write is caught, logged and swallowed, leaving the store as it was.
The closure never rethrows: it is total and returns the resulting store. -/
def backgroundDeploy (env : Env) (updateFails : Bool) (deploymentId : String)
    (outcome : JobOutcome) (now : Nat) (st : List Deployment) :
    List Deployment :=
  match outcome with
  | .resolved => st
  | .threw message =>
    match updateDeployment env updateFails deploymentId
        { status := some .failed
          error := some (some (jobErrorMessage message)) } now st with
    | .ok (_, st') => st'
    | .error _ => st

/-- The three demo rows inserted by `initializeDemoDeployments` (source lines
247-275), with database-assigned ids and timestamps passed in. -/
def demoDeployments (uid : String) (id1 id2 id3 : String) (now : Nat) :
    List Deployment :=
  [ { id := id1
      userId := uid
      projectName := "my-shipkit-app"
      description := some "Production deployment"
      status := .completed
      error := none
      githubRepoUrl := some "https://github.com/demo/my-shipkit-app"
      githubRepoName := some "demo/my-shipkit-app"
      vercelProjectUrl := some "https://vercel.com/demo/my-shipkit-app"
      vercelDeploymentUrl := some "https://my-shipkit-app.vercel.app"
      createdAt := now
      updatedAt := now },
    { id := id2
      userId := uid
      projectName := "shipkit-staging"
      description := some "Staging environment"
      status := .completed
      error := none
      githubRepoUrl := some "https://github.com/demo/shipkit-staging"
      githubRepoName := some "demo/shipkit-staging"
      vercelProjectUrl := some "https://vercel.com/demo/shipkit-staging"
      vercelDeploymentUrl := some "https://shipkit-staging.vercel.app"
      createdAt := now
      updatedAt := now },
    { id := id3
      userId := uid
      projectName := "shipkit-dev"
      description := some "Development environment"
      status := .failed
      error := some "Build failed: Module not found"
      githubRepoUrl := none
      githubRepoName := none
      vercelProjectUrl := none
      vercelDeploymentUrl := none
      createdAt := now
      updatedAt := now } ]

/-- `initializeDemoDeployments` (source lines 224-286): throws only
`"Unauthorized"` (no session) or `"Database not available"` (no db).  Inside
the `try`, it checks whether the user already has any row (`limit 1`);
if so it returns having inserted nothing; otherwise it bulk-inserts the three
demo rows in one statement.  Any error thrown inside the `try` — the
existence select failing or the bulk insert failing — is caught and logged,
and the function returns normally with the store untouched. -/
def initializeDemoDeployments (env : Env) (selectFails insertFails : Bool)
    (id1 id2 id3 : String) (now : Nat) (st : List Deployment) :
    Except String (List Deployment) :=
  match env.session with
  | none => .error "Unauthorized"
  | some uid =>
    if !env.dbAvailable then .error "Database not available"
    else if selectFails then .ok st
    else if st.any (fun r => r.userId == uid) then .ok st
    else if insertFails then .ok st
    else .ok (st ++ demoDeployments uid id1 id2 id3 now)

/-- A concrete deployment row used by witnesses and counterexamples. -/
def sampleDeployment (i uid : String) (s : DeploymentStatus) (e : Option String)
    (t : Nat) : Deployment :=
  { id := i
    userId := uid
    projectName := "my-app"
    description := none
    status := s
    error := e
    githubRepoUrl := none
    githubRepoName := none
    vercelProjectUrl := none
    vercelDeploymentUrl := none
    createdAt := t
    updatedAt := t }

/-- C1 counterexample: with an authenticated session and a working database,
`deleteDeployment` on an id that exists nowhere in the store (here: the empty
store) returns `true`, not the `false` the claim requires. -/
theorem deleteDeployment_absent_returns_true_cex :
    deleteDeployment { session := some "user-1", dbAvailable := true } false
        "dep-1" [] = Except.ok (true, []) ∧
    deleteDeployment { session := some "user-1", dbAvailable := true } false
        "dep-1" [] ≠ Except.ok (false, []) := by
  exact ⟨rfl, by simp [deleteDeployment]⟩

/-- C1 (amended): when the caller is authenticated and the database delete
succeeds, `deleteDeployment` on an id that does not exist in the store or
belongs to a different owner returns `true` (the source ignores the
statement's row count), does not throw, and leaves the store — in particular
the record count — unchanged. -/
theorem deleteDeployment_absent_spec (uid id : String) (st : List Deployment)
    (habsent : ∀ r ∈ st, r.id = id → r.userId ≠ uid) :
    deleteDeployment { session := some uid, dbAvailable := true } false id st
      = Except.ok (true, st) := by
  simp only [deleteDeployment]
  simp
  intro r hr
  by_cases h1 : r.id = id
  · exact Or.inr (habsent r hr h1)
  · exact Or.inl h1

/-- C1 witness: deleting id `"dep-1"` as `"user-1"` when the only stored row
with that id belongs to `"user-2"` returns `true` and keeps the store. -/
theorem deleteDeployment_absent_spec_witness :
    deleteDeployment { session := some "user-1", dbAvailable := true } false
        "dep-1" [sampleDeployment "dep-1" "user-2" DeploymentStatus.deploying none 0]
      = Except.ok (true,
          [sampleDeployment "dep-1" "user-2" DeploymentStatus.deploying none 0]) :=
  deleteDeployment_absent_spec "user-1" "dep-1" _ (by decide)

/-- C3: whenever the external validator rejects the raw project name,
`initiateDeployment` returns `success = false` carrying the validator's
error, leaves the store untouched (zero records created), and schedules no
background job — for every environment, failure injection, and store. -/
theorem initiateDeployment_invalid_is_noop
    (validateProjectName : String → ValidationResult) (env : Env)
    (insertFails : Bool) (projectName freshId : String) (now : Nat)
    (st : List Deployment)
    (hinvalid : (validateProjectName projectName).isValid = false) :
    initiateDeployment validateProjectName env insertFails projectName freshId
        now st
      = ({ success := false, error := (validateProjectName projectName).error },
          st, none) := by
  simp [initiateDeployment, hinvalid]

/-- C3 witness: a validator rejecting the empty name with
`"Project name is required"` makes `initiateDeployment` return that error and
touch nothing. -/
theorem initiateDeployment_invalid_is_noop_witness :
    initiateDeployment
        (fun _ => { isValid := false, error := some "Project name is required" })
        { session := some "user-1", dbAvailable := true } false "" "dep-1" 0 []
      = ({ success := false, error := some "Project name is required" },
          [], none) :=
  initiateDeployment_invalid_is_noop _ _ _ _ _ _ _ rfl

/-- C2: for every project name accepted by the validator, with an
authenticated session, an available database and a succeeding insert,
`initiateDeployment` returns `success = true` and the store immediately
afterwards is the old store plus exactly one new record, owned by the caller,
with the fresh id and `status = deploying` (and no error); the background job
is scheduled for that record, and a `getUserDeployments` call on the
resulting store sees the deploying record — the job has not run yet. -/
theorem initiateDeployment_valid_spec
    (validateProjectName : String → ValidationResult)
    (uid projectName freshId : String) (now : Nat) (st : List Deployment)
    (hvalid : (validateProjectName projectName).isValid = true)
    (hfresh : ∀ r ∈ st, r.id ≠ freshId) :
    ∃ d : Deployment,
      initiateDeployment validateProjectName
          { session := some uid, dbAvailable := true } false projectName freshId
          now st
        = ({ success := true
             message := some
               "Deployment initiated successfully! You can monitor the progress on this page."
             data := some {} }, st ++ [d], some freshId) ∧
      d.id = freshId ∧ d.userId = uid ∧
      d.status = DeploymentStatus.deploying ∧ d.error = none ∧
      ((st ++ [d]).filter (fun r => r.id == freshId)).length = 1 ∧
      ∃ l, getUserDeployments { session := some uid, dbAvailable := true } false
          (st ++ [d]) = Except.ok l ∧ d ∈ l := by
  refine ⟨{ id := freshId
            userId := uid
            projectName := projectName.trim
            description := some ("Deployment of " ++ projectName.trim)
            status := .deploying
            error := none
            githubRepoUrl := none
            githubRepoName := none
            vercelProjectUrl := none
            vercelDeploymentUrl := none
            createdAt := now
            updatedAt := now }, ?_, rfl, rfl, rfl, rfl, ?_, ?_⟩
  · simp [initiateDeployment, createDeployment, hvalid]
  · rw [List.filter_append]
    have h1 : st.filter (fun r => r.id == freshId) = [] := by
      apply List.filter_eq_nil_iff.mpr
      intro r hr
      simpa using hfresh r hr
    simp [h1]
  · refine ⟨_, rfl, ?_⟩
    rw [List.mem_mergeSort]
    simp

/-- C2 witness: an always-accepting validator, owner `"user-1"`, project
`"my-app"`, fresh id `"dep-1"` and the empty store. -/
theorem initiateDeployment_valid_spec_witness :
    ∃ d : Deployment,
      initiateDeployment (fun _ => { isValid := true, error := none })
          { session := some "user-1", dbAvailable := true } false "my-app"
          "dep-1" 0 []
        = ({ success := true
             message := some
               "Deployment initiated successfully! You can monitor the progress on this page."
             data := some {} }, [] ++ [d], some "dep-1") ∧
      d.id = "dep-1" ∧ d.userId = "user-1" ∧
      d.status = DeploymentStatus.deploying ∧ d.error = none ∧
      ((([] : List Deployment) ++ [d]).filter (fun r => r.id == "dep-1")).length
        = 1 ∧
      ∃ l, getUserDeployments { session := some "user-1", dbAvailable := true }
          false ([] ++ [d]) = Except.ok l ∧ d ∈ l :=
  initiateDeployment_valid_spec (fun _ => { isValid := true, error := none })
    "user-1" "my-app" "dep-1" 0 [] rfl (by simp)

/-- C7: with an authenticated session and a succeeding statement,
`updateDeployment` returns `null` (and leaves the store unchanged) whenever no
stored record has the requested id with the caller as owner — a foreign-owned
id is indistinguishable from an absent one; and when a record is found, the
returned record is the stored one with exactly the patched fields overwritten
(every field equals the patch's value when present and the old value when
absent), `updatedAt` refreshed to the statement's time, and `id`, `userId`,
`createdAt` untouched. -/
theorem updateDeployment_spec (uid id : String) (p : DeploymentPatch)
    (now : Nat) (st : List Deployment) :
    ((∀ q ∈ st, q.id = id → q.userId ≠ uid) →
      updateDeployment { session := some uid, dbAvailable := true } false id p
          now st = Except.ok (none, st)) ∧
    (∀ r, st.find? (fun q => q.id == id && q.userId == uid) = some r →
      updateDeployment { session := some uid, dbAvailable := true } false id p
          now st
        = Except.ok (some (applyPatch r p now),
            st.map (fun q =>
              if q.id == id && q.userId == uid then applyPatch q p now else q)) ∧
      (applyPatch r p now).updatedAt = now ∧
      (applyPatch r p now).id = r.id ∧
      (applyPatch r p now).userId = r.userId ∧
      (applyPatch r p now).createdAt = r.createdAt ∧
      (applyPatch r p now).projectName = p.projectName.getD r.projectName ∧
      (applyPatch r p now).description = p.description.getD r.description ∧
      (applyPatch r p now).status = p.status.getD r.status ∧
      (applyPatch r p now).error = p.error.getD r.error ∧
      (applyPatch r p now).githubRepoUrl = p.githubRepoUrl.getD r.githubRepoUrl ∧
      (applyPatch r p now).githubRepoName
        = p.githubRepoName.getD r.githubRepoName ∧
      (applyPatch r p now).vercelProjectUrl
        = p.vercelProjectUrl.getD r.vercelProjectUrl ∧
      (applyPatch r p now).vercelDeploymentUrl
        = p.vercelDeploymentUrl.getD r.vercelDeploymentUrl) := by
  constructor
  · intro habsent
    have hfind : st.find? (fun q => q.id == id && q.userId == uid) = none := by
      apply List.find?_eq_none.mpr
      intro q hq
      by_cases h1 : q.id = id
      · simp [h1, habsent q hq h1]
      · simp [h1]
    have hmap : st.map (fun q =>
        if q.id == id && q.userId == uid then applyPatch q p now else q) = st := by
      conv_rhs => rw [← List.map_id st]
      apply List.map_congr_left
      intro q hq
      by_cases h1 : q.id = id
      · simp [h1, habsent q hq h1]
      · simp [h1]
    have hred : updateDeployment { session := some uid, dbAvailable := true }
        false id p now st
        = Except.ok
            ((st.find? (fun q => q.id == id && q.userId == uid)).map
              (fun q => applyPatch q p now),
             st.map (fun q =>
               if q.id == id && q.userId == uid then applyPatch q p now
               else q)) := rfl
    rw [hred, hfind, hmap]
    rfl
  · intro r hr
    refine ⟨?_, rfl, rfl, rfl, rfl, rfl, rfl, rfl, rfl, rfl, rfl, rfl, rfl⟩
    simp [updateDeployment, hr]

/-- C4 counterexample: a record in the terminal status `completed` goes back
to `deploying` through the exposed `updateDeployment` with a
`status: "deploying"` patch — the code validates no transition. -/
theorem updateDeployment_reverts_completed_cex :
    (sampleDeployment "dep-1" "user-1" DeploymentStatus.completed none 0).status
      = DeploymentStatus.completed ∧
    updateDeployment { session := some "user-1", dbAvailable := true } false
        "dep-1" { status := some DeploymentStatus.deploying } 1
        [sampleDeployment "dep-1" "user-1" DeploymentStatus.completed none 0]
      = Except.ok
          (some { id := "dep-1", userId := "user-1", projectName := "my-app",
                  description := none, status := DeploymentStatus.deploying,
                  error := none, githubRepoUrl := none, githubRepoName := none,
                  vercelProjectUrl := none, vercelDeploymentUrl := none,
                  createdAt := 0, updatedAt := 1 },
            [{ id := "dep-1", userId := "user-1", projectName := "my-app",
               description := none, status := DeploymentStatus.deploying,
               error := none, githubRepoUrl := none, githubRepoName := none,
               vercelProjectUrl := none, vercelDeploymentUrl := none,
               createdAt := 0, updatedAt := 1 }]) := by
  exact ⟨rfl, rfl⟩

/-- C4 (amended): the lifecycle paths follow `deploying → completed` /
`deploying → failed`, but `updateDeployment` itself enforces no transition
discipline: for a matched record the resulting status is exactly the patch's
status whenever the patch carries one — whatever the old status, so a
terminal status can revert — and the old status otherwise. -/
theorem updateDeployment_status_unvalidated (uid id : String)
    (p : DeploymentPatch) (now : Nat) (st : List Deployment) (r : Deployment)
    (hfind : st.find? (fun q => q.id == id && q.userId == uid) = some r) :
    (updateDeployment { session := some uid, dbAvailable := true } false id p
        now st).map (fun out => out.1.map Deployment.status)
      = Except.ok (some (p.status.getD r.status)) := by
  simp [updateDeployment, hfind, applyPatch, Except.map]

/-- C4 witness: patching `status: "deploying"` onto a `completed` record
yields status `deploying`. -/
theorem updateDeployment_status_unvalidated_witness :
    (updateDeployment { session := some "user-1", dbAvailable := true } false
        "dep-1" { status := some DeploymentStatus.deploying } 1
        [sampleDeployment "dep-1" "user-1" DeploymentStatus.completed none 0]).map
        (fun out => out.1.map Deployment.status)
      = Except.ok (some DeploymentStatus.deploying) :=
  updateDeployment_status_unvalidated "user-1" "dep-1"
    { status := some DeploymentStatus.deploying } 1
    [sampleDeployment "dep-1" "user-1" DeploymentStatus.completed none 0]
    (sampleDeployment "dep-1" "user-1" DeploymentStatus.completed none 0) rfl

/-- C5 counterexample: patching `status: "failed"` (without an error) onto a
deploying record with no error yields a record with `status = failed` and
`error` unset — the "error set iff failed" biconditional does not survive an
arbitrary update. -/
theorem updateDeployment_breaks_error_iff_cex :
    updateDeployment { session := some "user-1", dbAvailable := true } false
        "dep-1" { status := some DeploymentStatus.failed } 1
        [sampleDeployment "dep-1" "user-1" DeploymentStatus.deploying none 0]
      = Except.ok
          (some { id := "dep-1", userId := "user-1", projectName := "my-app",
                  description := none, status := DeploymentStatus.failed,
                  error := none, githubRepoUrl := none, githubRepoName := none,
                  vercelProjectUrl := none, vercelDeploymentUrl := none,
                  createdAt := 0, updatedAt := 1 },
            [{ id := "dep-1", userId := "user-1", projectName := "my-app",
               description := none, status := DeploymentStatus.failed,
               error := none, githubRepoUrl := none, githubRepoName := none,
               vercelProjectUrl := none, vercelDeploymentUrl := none,
               createdAt := 0, updatedAt := 1 }]) ∧
    DeploymentStatus.failed ≠ DeploymentStatus.deploying := by
  exact ⟨rfl, by simp⟩

/-- C5 (amended): the "error set iff failed" biconditional holds for every
record the lifecycle itself produces — the record a successful initiate adds
is `deploying` with no error, every seeded demo record has a non-`none` error
exactly when `failed`, and every record the job-failure reconciliation
touches is either untouched from the old store or `failed` with the job's
error message set.  It is not maintained by `updateDeployment`, which applies
arbitrary patches (see the counterexample). -/
theorem error_iff_failed_lifecycle
    (validateProjectName : String → ValidationResult)
    (uid projectName freshId i1 i2 i3 depId : String) (now : Nat)
    (st : List Deployment) (message : Option String) :
    ((validateProjectName projectName).isValid = true →
      ∀ r ∈ (initiateDeployment validateProjectName
          { session := some uid, dbAvailable := true } false projectName freshId
          now st).2.1, r ∉ st →
        (r.error ≠ none ↔ r.status = DeploymentStatus.failed)) ∧
    (∀ r ∈ demoDeployments uid i1 i2 i3 now,
        (r.error ≠ none ↔ r.status = DeploymentStatus.failed)) ∧
    (∀ q ∈ backgroundDeploy { session := some uid, dbAvailable := true } false
        depId (JobOutcome.threw message) now st,
        q ∈ st ∨ (q.status = DeploymentStatus.failed ∧
          q.error = some (jobErrorMessage message))) := by
  refine ⟨?_, ?_, ?_⟩
  · intro hvalid r hr hnot
    simp only [initiateDeployment, createDeployment, hvalid] at hr
    simp at hr
    rcases hr with hr | hr
    · exact absurd hr hnot
    · subst hr
      simp
  · intro r hr
    simp only [demoDeployments] at hr
    simp at hr
    rcases hr with hr | hr | hr <;> subst hr <;> simp
  · intro q hq
    simp only [backgroundDeploy, updateDeployment] at hq
    simp at hq
    rcases hq with ⟨r, hr, hq⟩
    by_cases h1 : r.id = depId ∧ r.userId = uid
    · rw [if_pos (by simp [h1.1, h1.2])] at hq
      right
      subst hq
      exact ⟨rfl, rfl⟩
    · rw [if_neg (by simpa using h1)] at hq
      subst hq
      exact Or.inl hr

/-- C6: the detached reconciliation after the job throws.  With an
authenticated session and a working database: (1) when the reconciliation
write succeeds, the store becomes the old store with the caller's record for
the job's deployment patched; (2) that patch sets `status = failed` and
`error` to the thrown message (or the source's default text for a non-Error
throw); (3) when the job resolves, the closure itself changes nothing;
(4) when the reconciliation write fails, the failure is swallowed and the
store — in particular a still-`deploying` record — is left exactly as it was.
The closure is a total function into stores: nothing is re-thrown to the
caller of `initiateDeployment`, which already returned. -/
theorem backgroundDeploy_failure_spec (uid depId : String)
    (message : Option String) (now : Nat) (st : List Deployment) :
    backgroundDeploy { session := some uid, dbAvailable := true } false depId
        (JobOutcome.threw message) now st
      = st.map (fun q =>
          if q.id == depId && q.userId == uid then
            applyPatch q
              { status := some DeploymentStatus.failed
                error := some (some (jobErrorMessage message)) } now
          else q) ∧
    (∀ q ∈ st, q.id = depId → q.userId = uid →
        (applyPatch q
            { status := some DeploymentStatus.failed
              error := some (some (jobErrorMessage message)) } now).status
          = DeploymentStatus.failed ∧
        (applyPatch q
            { status := some DeploymentStatus.failed
              error := some (some (jobErrorMessage message)) } now).error
          = some (jobErrorMessage message)) ∧
    (∀ b : Bool, backgroundDeploy { session := some uid, dbAvailable := true }
        b depId JobOutcome.resolved now st = st) ∧
    backgroundDeploy { session := some uid, dbAvailable := true } true depId
        (JobOutcome.threw message) now st = st := by
  refine ⟨rfl, ?_, fun b => rfl, rfl⟩
  intro q _ _ _
  exact ⟨rfl, rfl⟩

/-- C6 witness: job thrown message `"Build failed"` on a store holding one
deploying record: a succeeding reconciliation turns it `failed` with
`error = "Build failed"`; a failing one leaves it deploying. -/
theorem backgroundDeploy_failure_spec_witness :
    backgroundDeploy { session := some "user-1", dbAvailable := true } false
        "dep-1" (JobOutcome.threw (some "Build failed")) 5
        [sampleDeployment "dep-1" "user-1" DeploymentStatus.deploying none 0]
      = [{ id := "dep-1", userId := "user-1", projectName := "my-app",
           description := none, status := DeploymentStatus.failed,
           error := some "Build failed", githubRepoUrl := none,
           githubRepoName := none, vercelProjectUrl := none,
           vercelDeploymentUrl := none, createdAt := 0, updatedAt := 5 }] ∧
    backgroundDeploy { session := some "user-1", dbAvailable := true } true
        "dep-1" (JobOutcome.threw (some "Build failed")) 5
        [sampleDeployment "dep-1" "user-1" DeploymentStatus.deploying none 0]
      = [sampleDeployment "dep-1" "user-1" DeploymentStatus.deploying none 0] := by
  have h := backgroundDeploy_failure_spec "user-1" "dep-1" (some "Build failed")
    5 [sampleDeployment "dep-1" "user-1" DeploymentStatus.deploying none 0]
  exact ⟨by rw [h.1]; rfl, h.2.2.2⟩

/-- C8: with an authenticated session and a working database,
`getUserDeployments` returns exactly the caller's records — a permutation of
the store's records with that `userId`, so every returned record belongs to
the caller, every stored record of the caller is returned, and no record of
any other owner appears — ordered by `createdAt` descending. -/
theorem getUserDeployments_spec (uid : String) (st : List Deployment) :
    ∃ l, getUserDeployments { session := some uid, dbAvailable := true } false
        st = Except.ok l ∧
      l.Perm (st.filter (fun r => r.userId == uid)) ∧
      (∀ r ∈ l, r.userId = uid) ∧
      (∀ r ∈ st, r.userId = uid → r ∈ l) ∧
      (∀ other : String, other ≠ uid → ∀ r ∈ l, r.userId ≠ other) ∧
      l.Pairwise (fun a b => b.createdAt ≤ a.createdAt) := by
  refine ⟨_, rfl, List.mergeSort_perm _ _, ?_, ?_, ?_, ?_⟩
  · intro r hr
    rw [List.mem_mergeSort] at hr
    simpa using (List.mem_filter.mp hr).2
  · intro r hr hu
    rw [List.mem_mergeSort]
    exact List.mem_filter.mpr ⟨hr, by simpa using hu⟩
  · intro other hne r hr
    rw [List.mem_mergeSort] at hr
    have hu : r.userId = uid := by simpa using (List.mem_filter.mp hr).2
    rw [hu]
    exact Ne.symm hne
  · refine List.Pairwise.imp ?_
      (@List.sorted_mergeSort Deployment
        (fun a b => decide (b.createdAt ≤ a.createdAt)) ?_ ?_
        (st.filter (fun r => r.userId == uid)))
    · intro a b h
      exact of_decide_eq_true h
    · intro a b c hab hbc
      exact decide_eq_true
        (le_trans (of_decide_eq_true hbc) (of_decide_eq_true hab))
    · intro a b
      rcases Nat.le_total b.createdAt a.createdAt with h | h <;> simp [h]

/-- C9: with an authenticated session, a working database and no injected
failure: on an owner with zero records, `initializeDemoDeployments` appends
the three demo records (statuses completed, completed, failed — mixed) in the
one bulk insert, all owned by the caller; calling it again on the resulting
store inserts nothing; and on any owner that already has a record it inserts
nothing at all. -/
theorem initializeDemoDeployments_seeds_once (uid i1 i2 i3 : String)
    (now : Nat) (st : List Deployment) :
    ((∀ r ∈ st, r.userId ≠ uid) →
      initializeDemoDeployments { session := some uid, dbAvailable := true }
          false false i1 i2 i3 now st
        = Except.ok (st ++ demoDeployments uid i1 i2 i3 now) ∧
      (demoDeployments uid i1 i2 i3 now).length = 3 ∧
      (demoDeployments uid i1 i2 i3 now).map Deployment.status
        = [DeploymentStatus.completed, DeploymentStatus.completed,
           DeploymentStatus.failed] ∧
      (∀ r ∈ demoDeployments uid i1 i2 i3 now, r.userId = uid) ∧
      initializeDemoDeployments { session := some uid, dbAvailable := true }
          false false i1 i2 i3 now (st ++ demoDeployments uid i1 i2 i3 now)
        = Except.ok (st ++ demoDeployments uid i1 i2 i3 now)) ∧
    (∀ r ∈ st, r.userId = uid →
      initializeDemoDeployments { session := some uid, dbAvailable := true }
          false false i1 i2 i3 now st = Except.ok st) := by
  constructor
  · intro hempty
    have hany : st.any (fun r => r.userId == uid) = false := by
      rw [List.any_eq_false]
      intro r hr
      simpa using hempty r hr
    refine ⟨?_, rfl, rfl, ?_, ?_⟩
    · simp [initializeDemoDeployments, hany]
    · intro r hr
      simp only [demoDeployments] at hr
      simp at hr
      rcases hr with hr | hr | hr <;> subst hr <;> rfl
    · simp [initializeDemoDeployments, demoDeployments]
  · intro r hr hu
    have hany : st.any (fun r => r.userId == uid) = true :=
      List.any_eq_true.mpr ⟨r, hr, by simpa using hu⟩
    simp [initializeDemoDeployments, hany]

/-- C9 witness: seeding owner `"user-1"` on the empty store appends the three
demo rows; re-running on the seeded store changes nothing. -/
theorem initializeDemoDeployments_seeds_once_witness :
    initializeDemoDeployments { session := some "user-1", dbAvailable := true }
        false false "demo-1" "demo-2" "demo-3" 0 []
      = Except.ok ([] ++ demoDeployments "user-1" "demo-1" "demo-2" "demo-3" 0) ∧
    initializeDemoDeployments { session := some "user-1", dbAvailable := true }
        false false "demo-1" "demo-2" "demo-3" 0
        ([] ++ demoDeployments "user-1" "demo-1" "demo-2" "demo-3" 0)
      = Except.ok ([] ++ demoDeployments "user-1" "demo-1" "demo-2" "demo-3" 0) := by
  have h := initializeDemoDeployments_seeds_once "user-1" "demo-1" "demo-2"
    "demo-3" 0 []
  have h1 := h.1 (by simp)
  exact ⟨h1.1, h1.2.2.2.2⟩

/-- C10: `initializeDemoDeployments` throws only for a missing principal
(`"Unauthorized"`) or an unavailable database (`"Database not available"`).
With an authenticated owner, a failing existence check or a failing bulk
insert is swallowed: the call returns normally and the store — so the owner's
record count, still zero seeded records — is unchanged, with nothing telling
the caller that seeding did not happen. -/
theorem initializeDemoDeployments_swallows_db_errors
    (uid i1 i2 i3 : String) (now : Nat) (st : List Deployment)
    (selectFails insertFails dbA : Bool) :
    initializeDemoDeployments { session := some uid, dbAvailable := true } true
        insertFails i1 i2 i3 now st = Except.ok st ∧
    initializeDemoDeployments { session := some uid, dbAvailable := true }
        false true i1 i2 i3 now st = Except.ok st ∧
    initializeDemoDeployments { session := none, dbAvailable := dbA }
        selectFails insertFails i1 i2 i3 now st = Except.error "Unauthorized" ∧
    initializeDemoDeployments { session := some uid, dbAvailable := false }
        selectFails insertFails i1 i2 i3 now st
      = Except.error "Database not available" := by
  refine ⟨rfl, ?_, rfl, ?_⟩
  · by_cases hany : st.any (fun r => r.userId == uid) = true <;>
      simp [initializeDemoDeployments, hany]
  · simp [initializeDemoDeployments]

end DeploymentActions
